import Mathlib

/-!
Verification development for a version-control service API layer
(three provider strategies over a shared request mixin and facade).
The definitions below are a shallow embedding of the Python sources
in src/versioncontrol (base.py, bitbucket.py, github.py, gitlab.py).
-/

/-- Python/JSON values, as needed by this code base. -/
inductive PyVal where
  | none
  | bool (b : Bool)
  | int (n : Int)
  | str (s : String)
  | dict (fields : List (String × PyVal))
  | list (items : List PyVal)

/-- A Python dictionary with string keys, modelled as an ordered
association list with unique keys (insertion order preserved, as in
Python 3.7+ dicts). -/
abbrev PyDict := List (String × PyVal)

/-- Errors raised by the embedded code. -/
inductive PyErr where
  | attributeError (msg : String)
  | keyError (k : String)
  | typeError (msg : String)
  | notImplementedError (msg : String)
  | httpError (status : Nat)
deriving DecidableEq

/-- Dictionary lookup: first (and, with unique keys, only) binding. -/
def dictGet : PyDict → String → Option PyVal
  | [], _ => Option.none
  | (k0, v0) :: rest, k => if k0 = k then Option.some v0 else dictGet rest k

/-- Assignment d[k] = v of a Python dict: update in place if the key
exists, otherwise append at the end (insertion order). -/
def dictSet : PyDict → String → PyVal → PyDict
  | [], k, v => [(k, v)]
  | (k0, v0) :: rest, k, v =>
    if k0 = k then (k, v) :: rest else (k0, v0) :: dictSet rest k v

/-- Python dict.update(other): assign every binding of other, in order. -/
def dictUpdate (d upd : PyDict) : PyDict :=
  upd.foldl (fun acc p => dictSet acc p.1 p.2) d

/-- merge_dict of base.py: for each keyword, try
thedict[key].update(value); on KeyError fall back to
thedict.update(\x7bkey: value\x7d); an existing non-dict value has no
update attribute and raises, a non-mapping update argument raises. -/
def merge_dict (thedict : PyDict) (kwargs : PyDict) : Except PyErr PyDict :=
  match kwargs with
  | [] => Except.ok thedict
  | (key, value) :: rest =>
    match dictGet thedict key, value with
    | Option.some (PyVal.dict inner), PyVal.dict v =>
      merge_dict (dictSet thedict key (PyVal.dict (dictUpdate inner v))) rest
    | Option.some (PyVal.dict _), _ =>
      Except.error (PyErr.typeError "dict.update requires a mapping")
    | Option.some _, _ =>
      Except.error (PyErr.attributeError "object has no attribute update")
    | Option.none, _ => merge_dict (dictSet thedict key value) rest

/-- Python subscript v[k] for a string key: KeyError when the key is
missing, TypeError when v is not a dict. -/
def pySubscript (v : PyVal) (k : String) : Except PyErr PyVal :=
  match v with
  | PyVal.dict d =>
    match dictGet d k with
    | Option.some x => Except.ok x
    | Option.none => Except.error (PyErr.keyError k)
  | _ => Except.error (PyErr.typeError "object is not subscriptable")

/-- Python equality of a value against a string: true only for an
equal string, false for every value of another type. -/
def pyEqStr (v : PyVal) (s : String) : Bool :=
  match v with
  | PyVal.str t => t == s
  | _ => false

/-- HTTP request methods used by the executor. -/
inductive HttpMethod where
  | GET
  | POST
  | PUT
  | DELETE
deriving DecidableEq

/-- A raw HTTP response: status code plus the decoded JSON body. -/
structure Response where
  status_code : Nat
  body : PyVal

/-- requests.Response.raise_for_status: raise exactly on 4xx/5xx. -/
def raise_for_status (r : Response) : Except PyErr Unit :=
  if 400 ≤ r.status_code ∧ r.status_code < 600
  then Except.error (PyErr.httpError r.status_code)
  else Except.ok ()

/-- JSONResponse of base.py: a synthetic response carrying a reason
text as the message field of a JSON body. -/
def JSONResponse (reason : String) (status_code : Nat) : Response :=
  Response.mk status_code (PyVal.dict [("message", PyVal.str reason)])

/-- The synthetic deletion-refused response of ServiceAPIStrategy. -/
def HTTP400_DELETION_REFUSED : Response :=
  JSONResponse "Slug does not match project. Deletion refused." 400

/-- One HTTP call issued by the executor: method, full URL and the
keyword arguments passed to the transport (headers already merged). -/
structure HttpCall where
  method : HttpMethod
  url : String
  kwargs : PyDict

/-- The HTTP transport as an oracle: every (method, url) pair has a
fixed raw response. -/
abbrev HttpWorld := HttpMethod → String → Response

/-- Sequencing of operations that may raise and that record the HTTP
calls they issued; calls made before a raise stay recorded. -/
def opBind {α β : Type} (x : Except PyErr α × List HttpCall)
    (f : α → Except PyErr β × List HttpCall) :
    Except PyErr β × List HttpCall :=
  match x with
  | (Except.error e, t) => (Except.error e, t)
  | (Except.ok a, t) =>
    match f a with
    | (r, t2) => (r, t ++ t2)

/-- Lift a pure raising computation: no HTTP calls. -/
def opLift {α : Type} (x : Except PyErr α) : Except PyErr α × List HttpCall :=
  (x, [])

/-- Python str.join over a list of values: TypeError on any non-string
item, as raised by a None path segment. -/
def pyStrList : List PyVal → Except PyErr (List String)
  | [] => Except.ok []
  | PyVal.str s :: rest => (pyStrList rest).map (fun l => s :: l)
  | _ :: _ => Except.error (PyErr.typeError "sequence item: expected str instance")

/-- sep.join(items) for a nonempty list of strings. -/
def pyJoin (sep : String) (items : List String) : String :=
  match items with
  | [] => ""
  | x :: rest => rest.foldl (fun acc y => acc ++ sep ++ y) x

/-- The state of ServiceRequestsMixin: base URL, fixed headers and the
request timeout, set at construction. -/
structure ServiceRequestsMixin where
  base_url : String
  headers : PyDict
  timeout : Nat

/-- url_for_endpoint of base.py: join base URL, endpoint and the extra
path segments with a slash. -/
def ServiceRequestsMixin.url_for_endpoint (m : ServiceRequestsMixin)
    (endpoint : String) (args : List PyVal) : Except PyErr String :=
  (pyStrList (PyVal.str m.base_url :: PyVal.str endpoint :: args)).map (pyJoin "/")

/-- Shared body of the get/post/put/delete methods of
ServiceRequestsMixin: build the URL, merge the fixed headers into the
keyword arguments with merge_dict, then issue the call. -/
def ServiceRequestsMixin.request (m : ServiceRequestsMixin) (w : HttpWorld)
    (meth : HttpMethod) (endpoint : String) (args : List PyVal)
    (kwargs : PyDict) : Except PyErr Response × List HttpCall :=
  match m.url_for_endpoint endpoint args with
  | Except.error e => (Except.error e, [])
  | Except.ok url =>
    match merge_dict kwargs [("headers", PyVal.dict m.headers)] with
    | Except.error e => (Except.error e, [])
    | Except.ok kw => (Except.ok (w meth url), [HttpCall.mk meth url kw])

/-- ServiceRequestsMixin.get. -/
def ServiceRequestsMixin.get (m : ServiceRequestsMixin) (w : HttpWorld)
    (endpoint : String) (args : List PyVal) (kwargs : PyDict) :
    Except PyErr Response × List HttpCall :=
  m.request w HttpMethod.GET endpoint args kwargs

/-- ServiceRequestsMixin.post. -/
def ServiceRequestsMixin.post (m : ServiceRequestsMixin) (w : HttpWorld)
    (endpoint : String) (args : List PyVal) (kwargs : PyDict) :
    Except PyErr Response × List HttpCall :=
  m.request w HttpMethod.POST endpoint args kwargs

/-- ServiceRequestsMixin.put. -/
def ServiceRequestsMixin.put (m : ServiceRequestsMixin) (w : HttpWorld)
    (endpoint : String) (args : List PyVal) (kwargs : PyDict) :
    Except PyErr Response × List HttpCall :=
  m.request w HttpMethod.PUT endpoint args kwargs

/-- ServiceRequestsMixin.delete. -/
def ServiceRequestsMixin.delete (m : ServiceRequestsMixin) (w : HttpWorld)
    (endpoint : String) (args : List PyVal) (kwargs : PyDict) :
    Except PyErr Response × List HttpCall :=
  m.request w HttpMethod.DELETE endpoint args kwargs

/-- get_json_or_raise of base.py: GET, raise_for_status, return the
decoded JSON body. -/
def ServiceRequestsMixin.get_json_or_raise (m : ServiceRequestsMixin)
    (w : HttpWorld) (endpoint : String) (args : List PyVal) (kwargs : PyDict) :
    Except PyErr PyVal × List HttpCall :=
  opBind (m.get w endpoint args kwargs) fun r =>
    opLift ((raise_for_status r).map (fun _ => r.body))

/-- ServiceAPIStrategy constructor: install the bearer token into the
given default headers. -/
def ServiceAPIStrategy.init_headers (headers : PyDict) (oauth_token : String) : PyDict :=
  dictSet headers "Authorization" (PyVal.str ("Bearer " ++ oauth_token))

/-- Whitespace as matched by the backslash-s regex class and stripped
by Python str.strip. -/
def isSlugSpace (c : Char) : Bool :=
  c = ' ' || c = '\t' || c = '\n' || c = '\r' || c.toNat = 11 || c.toNat = 12

/-- ASCII word characters of the backslash-w regex class. -/
def isSlugWord (c : Char) : Bool :=
  c.isAlphanum || c = '_'

/-- Python str.strip: remove leading and trailing whitespace. -/
def stripSpaces (l : List Char) : List Char :=
  ((l.dropWhile isSlugSpace).reverse.dropWhile isSlugSpace).reverse

/-- Replace every maximal run of whitespace and hyphens by one hyphen,
the effect of substituting the regex class [-s]+ by a hyphen. -/
def collapseDashes : List Char → List Char
  | [] => []
  | c :: rest =>
    let tail := collapseDashes rest
    if isSlugSpace c || c = '-' then
      match tail with
      | '-' :: _ => tail
      | _ => '-' :: tail
    else c :: tail

/-- django.template.defaultfilters.slugify, modelled for ASCII input:
drop non-ASCII, drop characters that are not word characters,
whitespace or hyphens, strip, lowercase, and collapse whitespace and
hyphen runs into single hyphens. -/
def slugify (value : String) : String :=
  let ascii := value.toList.filter (fun c => c.toNat < 128)
  let kept := ascii.filter (fun c => isSlugWord c || isSlugSpace c || c = '-')
  let lowered := (stripSpaces kept).map Char.toLower
  String.mk (collapseDashes lowered)

/-- The falsy-test slug defaulting shared by the strategies: a missing
or empty slug is replaced by slugify of the name. -/
def default_slug (slug : Option String) (name : String) : String :=
  match slug with
  | Option.none => slugify name
  | Option.some s => if s = "" then slugify name else s

/-- A Python optional string as a value: None or the string itself. -/
def optPyStr : Option String → PyVal
  | Option.none => PyVal.none
  | Option.some s => PyVal.str s

/-- The fixed headers of the Bitbucket strategy: constructed from no
default headers plus the bearer token. -/
def bbHeaders (token : String) : PyDict :=
  ServiceAPIStrategy.init_headers [] token

/-- The request mixin of BitbucketStrategy: Bitbucket base URL,
bearer-token headers, default timeout of 30 seconds. -/
def BitbucketStrategy.mixin (token : String) : ServiceRequestsMixin :=
  ServiceRequestsMixin.mk "https://api.bitbucket.org/2.0" (bbHeaders token) 30

/-- BitbucketStrategy.username: GET the user endpoint and take the
username field of the decoded body. -/
def BitbucketStrategy.username (token : String) (w : HttpWorld) :
    Except PyErr PyVal × List HttpCall :=
  opBind ((BitbucketStrategy.mixin token).get_json_or_raise w "user" [] []) fun body =>
    opLift (pySubscript body "username")

/-- The default settings dict of BitbucketStrategy.create_project,
updated in place by the caller-supplied keyword arguments. -/
def BitbucketStrategy.create_settings (name : String) (kwargs : PyDict) : PyDict :=
  dictUpdate
    [("has_issues", PyVal.bool false),
     ("has_wiki", PyVal.bool false),
     ("is_private", PyVal.bool true),
     ("name", PyVal.str name),
     ("scm", PyVal.str "git")]
    kwargs

/-- BitbucketStrategy.create_project: POST the settings to
repositories/username/slug, slugifying the name when no slug is given. -/
def BitbucketStrategy.create_project (token : String) (w : HttpWorld)
    (name : String) (slug : Option String) (kwargs : PyDict) :
    Except PyErr Response × List HttpCall :=
  let settings := BitbucketStrategy.create_settings name kwargs
  let slug2 := default_slug slug name
  opBind (BitbucketStrategy.username token w) fun u =>
    (BitbucketStrategy.mixin token).post w "repositories" [u, PyVal.str slug2]
      [("json", PyVal.dict settings)]

/-- BitbucketStrategy.update_project: PUT the keyword arguments to
repositories/username/slug; the slug is passed through verbatim. -/
def BitbucketStrategy.update_project (token : String) (w : HttpWorld)
    (key : String) (slug : Option String) (kwargs : PyDict) :
    Except PyErr Response × List HttpCall :=
  let mappings := dictUpdate [] kwargs
  opBind (BitbucketStrategy.username token w) fun u =>
    (BitbucketStrategy.mixin token).put w "repositories" [u, optPyStr slug]
      [("json", PyVal.dict mappings)]

/-- BitbucketStrategy.project_details: GET repositories/username/key. -/
def BitbucketStrategy.project_details (token : String) (w : HttpWorld)
    (key : String) : Except PyErr Response × List HttpCall :=
  opBind (BitbucketStrategy.username token w) fun u =>
    (BitbucketStrategy.mixin token).get w "repositories" [u, PyVal.str key] []

/-- BitbucketStrategy.delete_project: fetch the project details, raise
on a failed fetch, compare the name field against the slug, and only
on a match DELETE repositories/username/slug; otherwise return the
synthetic deletion-refused response. -/
def BitbucketStrategy.delete_project (token : String) (w : HttpWorld)
    (key slug : String) : Except PyErr Response × List HttpCall :=
  opBind (BitbucketStrategy.project_details token w key) fun resp =>
  opBind (opLift ((raise_for_status resp).map (fun _ => resp.body))) fun body =>
  opBind (opLift (pySubscript body "name")) fun v =>
    if pyEqStr v slug then
      opBind (BitbucketStrategy.username token w) fun u =>
        (BitbucketStrategy.mixin token).delete w "repositories" [u, PyVal.str slug] []
    else
      (Except.ok HTTP400_DELETION_REFUSED, [])

/-- BitbucketStrategy.list_projects: GET repositories/username. -/
def BitbucketStrategy.list_projects (token : String) (w : HttpWorld) :
    Except PyErr Response × List HttpCall :=
  opBind (BitbucketStrategy.username token w) fun u =>
    (BitbucketStrategy.mixin token).get w "repositories" [u] []

/-- BitbucketStrategy.add_deploy_key: immediately raises
NotImplementedError, no HTTP call. -/
def BitbucketStrategy.add_deploy_key (_token : String) (_w : HttpWorld)
    (_project_id _key_title _ssh_key : String) (_read_only : Bool) :
    Except PyErr Response × List HttpCall :=
  (Except.error (PyErr.notImplementedError "Not available on Bitbucket, we\x27re sorry!"), [])

/-- The fixed headers of the GitHub strategy: the v3 media-type Accept
header plus the bearer token. -/
def ghHeaders (token : String) : PyDict :=
  ServiceAPIStrategy.init_headers
    [("Accept", PyVal.str "application/vnd.github.v3+json")] token

/-- The request mixin of GitHubStrategy. -/
def GitHubStrategy.mixin (token : String) : ServiceRequestsMixin :=
  ServiceRequestsMixin.mk "https://api.github.com" (ghHeaders token) 30

/-- GitHubStrategy.username: GET the user endpoint and take the login
field of the decoded body. -/
def GitHubStrategy.username (token : String) (w : HttpWorld) :
    Except PyErr PyVal × List HttpCall :=
  opBind ((GitHubStrategy.mixin token).get_json_or_raise w "user" [] []) fun body =>
    opLift (pySubscript body "login")

/-- The default settings dict of GitHubStrategy.create_project: note
the name field holds the slug (or the slugified name) and the private
flag defaults to False. -/
def GitHubStrategy.create_settings (name : String) (slug : Option String)
    (kwargs : PyDict) : PyDict :=
  dictUpdate
    [("has_issues", PyVal.bool false),
     ("has_wiki", PyVal.bool false),
     ("name", PyVal.str (default_slug slug name)),
     ("private", PyVal.bool false)]
    kwargs

/-- GitHubStrategy.create_project: POST the settings to user/repos. -/
def GitHubStrategy.create_project (token : String) (w : HttpWorld)
    (name : String) (slug : Option String) (kwargs : PyDict) :
    Except PyErr Response × List HttpCall :=
  (GitHubStrategy.mixin token).post w "user" [PyVal.str "repos"]
    [("json", PyVal.dict (GitHubStrategy.create_settings name slug kwargs))]

/-- GitHubStrategy.update_project: PUT the keyword arguments to
repos/username/key. -/
def GitHubStrategy.update_project (token : String) (w : HttpWorld)
    (key : String) (slug : Option String) (kwargs : PyDict) :
    Except PyErr Response × List HttpCall :=
  let mappings := dictUpdate [] kwargs
  opBind (GitHubStrategy.username token w) fun u =>
    (GitHubStrategy.mixin token).put w "repos" [u, PyVal.str key]
      [("json", PyVal.dict mappings)]

/-- GitHubStrategy.project_details: GET repos/username/key. -/
def GitHubStrategy.project_details (token : String) (w : HttpWorld)
    (key : String) : Except PyErr Response × List HttpCall :=
  opBind (GitHubStrategy.username token w) fun u =>
    (GitHubStrategy.mixin token).get w "repos" [u, PyVal.str key] []

/-- GitHubStrategy.delete_project: fetch the project details, raise on
a failed fetch, compare the path field against the slug, and only on a
match DELETE repos/username/key; otherwise return the synthetic
deletion-refused response. -/
def GitHubStrategy.delete_project (token : String) (w : HttpWorld)
    (key slug : String) : Except PyErr Response × List HttpCall :=
  opBind (GitHubStrategy.project_details token w key) fun resp =>
  opBind (opLift ((raise_for_status resp).map (fun _ => resp.body))) fun body =>
  opBind (opLift (pySubscript body "path")) fun v =>
    if pyEqStr v slug then
      opBind (GitHubStrategy.username token w) fun u =>
        (GitHubStrategy.mixin token).delete w "repos" [u, PyVal.str key] []
    else
      (Except.ok HTTP400_DELETION_REFUSED, [])

/-- GitHubStrategy.list_projects: GET user/repos. -/
def GitHubStrategy.list_projects (token : String) (w : HttpWorld) :
    Except PyErr Response × List HttpCall :=
  (GitHubStrategy.mixin token).get w "user" [PyVal.str "repos"] []

/-- The fixed headers of the GitLab strategy: only the bearer token. -/
def glHeaders (token : String) : PyDict :=
  ServiceAPIStrategy.init_headers [] token

/-- The request mixin of GitLabStrategy. -/
def GitLabStrategy.mixin (token : String) : ServiceRequestsMixin :=
  ServiceRequestsMixin.mk "https://gitlab.com/api/v4" (glHeaders token) 30

/-- The default settings dict of GitLabStrategy.create_project: note
the path field holds the slug verbatim (None when absent) and the
public flag defaults to False. -/
def GitLabStrategy.create_settings (name : String) (slug : Option String)
    (kwargs : PyDict) : PyDict :=
  dictUpdate
    [("builds_enabled", PyVal.bool true),
     ("issues_enabled", PyVal.bool false),
     ("merge_requests_enabled", PyVal.bool true),
     ("name", PyVal.str name),
     ("path", optPyStr slug),
     ("public", PyVal.bool false),
     ("public_builds", PyVal.bool false),
     ("snippets_enabled", PyVal.bool false),
     ("wiki_enabled", PyVal.bool false)]
    kwargs

/-- GitLabStrategy.create_project: POST to projects with the settings
as query parameters. -/
def GitLabStrategy.create_project (token : String) (w : HttpWorld)
    (name : String) (slug : Option String) (kwargs : PyDict) :
    Except PyErr Response × List HttpCall :=
  (GitLabStrategy.mixin token).post w "projects" []
    [("params", PyVal.dict (GitLabStrategy.create_settings name slug kwargs))]

/-- GitLabStrategy.update_project: PUT to projects/key with the path
mapping plus the keyword arguments as query parameters. -/
def GitLabStrategy.update_project (token : String) (w : HttpWorld)
    (key : String) (slug : Option String) (kwargs : PyDict) :
    Except PyErr Response × List HttpCall :=
  let mappings := dictUpdate [("path", optPyStr slug)] kwargs
  (GitLabStrategy.mixin token).put w "projects" [PyVal.str key]
    [("params", PyVal.dict mappings)]

/-- GitLabStrategy.project_details: GET projects/key. -/
def GitLabStrategy.project_details (token : String) (w : HttpWorld)
    (key : String) : Except PyErr Response × List HttpCall :=
  (GitLabStrategy.mixin token).get w "projects" [PyVal.str key] []

/-- GitLabStrategy.delete_project: fetch the project details, raise on
a failed fetch, compare the path field against the slug, and only on a
match DELETE projects/key; otherwise return the synthetic
deletion-refused response. -/
def GitLabStrategy.delete_project (token : String) (w : HttpWorld)
    (key slug : String) : Except PyErr Response × List HttpCall :=
  opBind (GitLabStrategy.project_details token w key) fun resp =>
  opBind (opLift ((raise_for_status resp).map (fun _ => resp.body))) fun body =>
  opBind (opLift (pySubscript body "path")) fun v =>
    if pyEqStr v slug then
      (GitLabStrategy.mixin token).delete w "projects" [PyVal.str key] []
    else
      (Except.ok HTTP400_DELETION_REFUSED, [])

/-- GitLabStrategy.list_projects: GET projects. -/
def GitLabStrategy.list_projects (token : String) (w : HttpWorld) :
    Except PyErr Response × List HttpCall :=
  (GitLabStrategy.mixin token).get w "projects" [] []

/-- The behavior of a strategy as seen by the ServiceAPI facade: each
of the six abstract operations yields a raw response (or raises) and a
list of issued HTTP calls. -/
structure StrategyCalls where
  create_project : String → PyDict → Except PyErr Response × List HttpCall
  update_project : String → PyDict → Except PyErr Response × List HttpCall
  delete_project : String → String → Except PyErr Response × List HttpCall
  list_projects : Except PyErr Response × List HttpCall
  project_details : String → Except PyErr Response × List HttpCall
  add_deploy_key : String → String → String → Bool → Except PyErr Response × List HttpCall

/-- The mutable state of the ServiceAPI facade: the single response
slot holding the last decoded JSON body. -/
structure ServiceAPIState where
  response : Option PyVal

/-- The dispatch shared by every ServiceAPI method: delegate to the
strategy, store the decoded JSON body in the response slot, then
raise_for_status; the slot is written before the raise check. -/
def ServiceAPI.dispatch (st : ServiceAPIState)
    (r : Except PyErr Response × List HttpCall) :
    (Except PyErr Unit × List HttpCall) × ServiceAPIState :=
  match r with
  | (Except.error e, t) => ((Except.error e, t), st)
  | (Except.ok resp, t) =>
    ((raise_for_status resp, t), ServiceAPIState.mk (Option.some resp.body))

/-- ServiceAPI.create_project. -/
def ServiceAPI.create_project (s : StrategyCalls) (st : ServiceAPIState)
    (name : String) (kwargs : PyDict) :
    (Except PyErr Unit × List HttpCall) × ServiceAPIState :=
  ServiceAPI.dispatch st (s.create_project name kwargs)

/-- ServiceAPI.update_project. -/
def ServiceAPI.update_project (s : StrategyCalls) (st : ServiceAPIState)
    (key : String) (kwargs : PyDict) :
    (Except PyErr Unit × List HttpCall) × ServiceAPIState :=
  ServiceAPI.dispatch st (s.update_project key kwargs)

/-- ServiceAPI.delete_project. -/
def ServiceAPI.delete_project (s : StrategyCalls) (st : ServiceAPIState)
    (key slug : String) :
    (Except PyErr Unit × List HttpCall) × ServiceAPIState :=
  ServiceAPI.dispatch st (s.delete_project key slug)

/-- ServiceAPI.list_projects. -/
def ServiceAPI.list_projects (s : StrategyCalls) (st : ServiceAPIState) :
    (Except PyErr Unit × List HttpCall) × ServiceAPIState :=
  ServiceAPI.dispatch st s.list_projects

/-- ServiceAPI.project_details. -/
def ServiceAPI.project_details (s : StrategyCalls) (st : ServiceAPIState)
    (key : String) :
    (Except PyErr Unit × List HttpCall) × ServiceAPIState :=
  ServiceAPI.dispatch st (s.project_details key)

/-- ServiceAPI.add_deploy_key. -/
def ServiceAPI.add_deploy_key (s : StrategyCalls) (st : ServiceAPIState)
    (project_id key_title ssh_key : String) (read_only : Bool) :
    (Except PyErr Unit × List HttpCall) × ServiceAPIState :=
  ServiceAPI.dispatch st (s.add_deploy_key project_id key_title ssh_key read_only)

/-- The Bitbucket user endpoint URL. -/
def bbUserUrl : String := "https://api.bitbucket.org/2.0/user"

/-- The Bitbucket repositories/username/x URL shape shared by the
details, create, update and delete endpoints. -/
def bbRepoUrl (u x : String) : String :=
  "https://api.bitbucket.org/2.0/repositories/" ++ u ++ "/" ++ x

/-- The GitHub user endpoint URL. -/
def ghUserUrl : String := "https://api.github.com/user"

/-- The GitHub create endpoint URL user/repos. -/
def ghCreateUrl : String := "https://api.github.com/user/repos"

/-- The GitHub repos/username/key URL shape of the details, update and
delete endpoints. -/
def ghRepoUrl (u x : String) : String :=
  "https://api.github.com/repos/" ++ u ++ "/" ++ x

/-- The GitLab projects endpoint URL. -/
def glProjectsUrl : String := "https://gitlab.com/api/v4/projects"

/-- The GitLab projects/key URL shape of the details, update and
delete endpoints. -/
def glProjectUrl (key : String) : String :=
  "https://gitlab.com/api/v4/projects/" ++ key

/-- Keyword arguments carrying only the merged-in fixed headers. -/
def authKwargs (headers : PyDict) : PyDict :=
  [("headers", PyVal.dict headers)]

/-- The GET call resolving the Bitbucket username. -/
def bbUserCall (token : String) : HttpCall :=
  HttpCall.mk HttpMethod.GET bbUserUrl (authKwargs (bbHeaders token))

/-- The GET call resolving the GitHub username. -/
def ghUserCall (token : String) : HttpCall :=
  HttpCall.mk HttpMethod.GET ghUserUrl (authKwargs (ghHeaders token))

theorem bb_username_spec (token u : String) (w : HttpWorld)
    (h1 : raise_for_status (w HttpMethod.GET bbUserUrl) = Except.ok ())
    (h2 : pySubscript (w HttpMethod.GET bbUserUrl).body "username" =
      Except.ok (PyVal.str u)) :
    BitbucketStrategy.username token w =
      (Except.ok (PyVal.str u), [bbUserCall token]) := by
  unfold BitbucketStrategy.username ServiceRequestsMixin.get_json_or_raise
  have hg : (BitbucketStrategy.mixin token).get w "user" [] [] =
      (Except.ok (w HttpMethod.GET bbUserUrl), [bbUserCall token]) := rfl
  rw [hg]
  simp [opBind, opLift, Except.map, h1, h2]

theorem gh_username_spec (token u : String) (w : HttpWorld)
    (h1 : raise_for_status (w HttpMethod.GET ghUserUrl) = Except.ok ())
    (h2 : pySubscript (w HttpMethod.GET ghUserUrl).body "login" =
      Except.ok (PyVal.str u)) :
    GitHubStrategy.username token w =
      (Except.ok (PyVal.str u), [ghUserCall token]) := by
  unfold GitHubStrategy.username ServiceRequestsMixin.get_json_or_raise
  have hg : (GitHubStrategy.mixin token).get w "user" [] [] =
      (Except.ok (w HttpMethod.GET ghUserUrl), [ghUserCall token]) := rfl
  rw [hg]
  simp [opBind, opLift, Except.map, h1, h2]

theorem bb_project_details_spec (token u key : String) (w : HttpWorld)
    (h1 : raise_for_status (w HttpMethod.GET bbUserUrl) = Except.ok ())
    (h2 : pySubscript (w HttpMethod.GET bbUserUrl).body "username" =
      Except.ok (PyVal.str u)) :
    BitbucketStrategy.project_details token w key =
      (Except.ok (w HttpMethod.GET (bbRepoUrl u key)),
        [bbUserCall token,
          HttpCall.mk HttpMethod.GET (bbRepoUrl u key) (authKwargs (bbHeaders token))]) := by
  unfold BitbucketStrategy.project_details
  rw [bb_username_spec token u w h1 h2]
  rfl

theorem gh_project_details_spec (token u key : String) (w : HttpWorld)
    (h1 : raise_for_status (w HttpMethod.GET ghUserUrl) = Except.ok ())
    (h2 : pySubscript (w HttpMethod.GET ghUserUrl).body "login" =
      Except.ok (PyVal.str u)) :
    GitHubStrategy.project_details token w key =
      (Except.ok (w HttpMethod.GET (ghRepoUrl u key)),
        [ghUserCall token,
          HttpCall.mk HttpMethod.GET (ghRepoUrl u key) (authKwargs (ghHeaders token))]) := by
  unfold GitHubStrategy.project_details
  rw [gh_username_spec token u w h1 h2]
  rfl

theorem gl_project_details_spec (token key : String) (w : HttpWorld) :
    GitLabStrategy.project_details token w key =
      (Except.ok (w HttpMethod.GET (glProjectUrl key)),
        [HttpCall.mk HttpMethod.GET (glProjectUrl key) (authKwargs (glHeaders token))]) := rfl

theorem dictGet_dictSet (d : PyDict) (k : String) (v : PyVal) (q : String) :
    dictGet (dictSet d k v) q = if k = q then Option.some v else dictGet d q := by
  induction d with
  | nil => simp [dictSet, dictGet]
  | cons p rest ih =>
    obtain ⟨k0, v0⟩ := p
    by_cases h0 : k0 = k
    · subst h0
      by_cases hq : k0 = q <;> simp [dictSet, dictGet, hq]
    · by_cases hq : k0 = q
      · subst hq
        have hne : ¬ k = k0 := fun h => h0 h.symm
        simp [dictSet, dictGet, h0, hne]
      · simp [dictSet, dictGet, h0, hq, ih]

theorem dictGet_eq_none_of_not_mem (u : PyDict) (k : String)
    (h : k ∉ u.map Prod.fst) : dictGet u k = Option.none := by
  induction u with
  | nil => rfl
  | cons p rest ih =>
    obtain ⟨k0, v0⟩ := p
    simp only [List.map_cons, List.mem_cons] at h
    push_neg at h
    have hne : ¬ k0 = k := fun he => h.1 he.symm
    simp [dictGet, hne, ih h.2]

theorem dictGet_dictUpdate_none (d u : PyDict) (k : String)
    (h : dictGet u k = Option.none) :
    dictGet (dictUpdate d u) k = dictGet d k := by
  induction u generalizing d with
  | nil => rfl
  | cons p rest ih =>
    obtain ⟨k0, v0⟩ := p
    by_cases hk : k0 = k
    · simp [dictGet, hk] at h
    · simp only [dictGet, if_neg hk] at h
      show dictGet (dictUpdate (dictSet d k0 v0) rest) k = dictGet d k
      rw [ih _ h, dictGet_dictSet, if_neg hk]

theorem dictGet_dictUpdate_some (d u : PyDict) (k : String) (v : PyVal)
    (hn : (u.map Prod.fst).Nodup)
    (h : dictGet u k = Option.some v) :
    dictGet (dictUpdate d u) k = Option.some v := by
  induction u generalizing d with
  | nil => cases h
  | cons p rest ih =>
    obtain ⟨k0, v0⟩ := p
    simp only [List.map_cons, List.nodup_cons] at hn
    by_cases hk : k0 = k
    · subst hk
      simp [dictGet] at h
      have hnone : dictGet rest k0 = Option.none :=
        dictGet_eq_none_of_not_mem rest k0 hn.1
      show dictGet (dictUpdate (dictSet d k0 v0) rest) k0 = Option.some v
      rw [dictGet_dictUpdate_none _ _ _ hnone, dictGet_dictSet]
      simp [h]
    · simp only [dictGet, if_neg hk] at h
      show dictGet (dictUpdate (dictSet d k0 v0) rest) k = Option.some v
      exact ih _ hn.2 h

/-- C7: calling add_deploy_key on the Bitbucket strategy always raises
a NotImplementedError immediately and locally, with zero HTTP calls
issued, for every token, transport, input and read-only flag. -/
theorem claim_C7 (token : String) (w : HttpWorld)
    (project_id key_title ssh_key : String) (read_only : Bool) :
    BitbucketStrategy.add_deploy_key token w project_id key_title ssh_key read_only =
      (Except.error
        (PyErr.notImplementedError "Not available on Bitbucket, we\x27re sorry!"),
        []) := rfl

/-- C5: merge_dict with a single keyword adds the entry when the key
is absent, combines the two maps key by key when the existing value is
a map (in particular merging headers a:1 with headers b:2 yields
headers a:1,b:2), and raises when the existing value is not a map. -/
theorem claim_C5 :
    (∀ (thedict : PyDict) (key : String) (newmap : PyDict),
      dictGet thedict key = Option.none →
      merge_dict thedict [(key, PyVal.dict newmap)] =
        Except.ok (dictSet thedict key (PyVal.dict newmap))) ∧
    (∀ (thedict : PyDict) (key : String) (inner newmap : PyDict),
      dictGet thedict key = Option.some (PyVal.dict inner) →
      merge_dict thedict [(key, PyVal.dict newmap)] =
        Except.ok (dictSet thedict key (PyVal.dict (dictUpdate inner newmap)))) ∧
    (merge_dict [("headers", PyVal.dict [("a", PyVal.int 1)])]
        [("headers", PyVal.dict [("b", PyVal.int 2)])] =
      Except.ok [("headers", PyVal.dict [("a", PyVal.int 1), ("b", PyVal.int 2)])]) ∧
    (∀ (thedict : PyDict) (key : String) (v : PyVal) (newmap : PyDict),
      dictGet thedict key = Option.some v →
      (∀ d, v ≠ PyVal.dict d) →
      merge_dict thedict [(key, PyVal.dict newmap)] =
        Except.error (PyErr.attributeError "object has no attribute update")) := by
  refine ⟨?_, ?_, rfl, ?_⟩
  · intro thedict key newmap h
    simp [merge_dict, h]
  · intro thedict key inner newmap h
    simp [merge_dict, h]
  · intro thedict key v newmap h hv
    cases v with
    | dict d => exact absurd rfl (hv d)
    | none => simp [merge_dict, h]
    | bool b => simp [merge_dict, h]
    | int n => simp [merge_dict, h]
    | str s => simp [merge_dict, h]
    | list l => simp [merge_dict, h]

/-- A concrete strategy behavior used to witness facade properties. -/
def testResp404 : Response :=
  Response.mk 404 (PyVal.dict [("message", PyVal.str "nope")])

/-- A strategy stub whose operations return fixed responses. -/
def testStrategyCalls : StrategyCalls :=
  StrategyCalls.mk
    (fun _ _ => (Except.ok testResp404, []))
    (fun _ _ => (Except.ok (Response.mk 200 PyVal.none), []))
    (fun _ _ => (Except.ok (Response.mk 400 PyVal.none), []))
    (Except.ok (Response.mk 200 (PyVal.list [])), [])
    (fun _ => (Except.ok (Response.mk 500 PyVal.none), []))
    (fun _ _ _ _ => (Except.ok (Response.mk 201 PyVal.none), []))

theorem dispatch_spec (st : ServiceAPIState)
    (x : Except PyErr Response × List HttpCall)
    (resp : Response) (t : List HttpCall) (h : x = (Except.ok resp, t)) :
    (ServiceAPI.dispatch st x).2.response = Option.some resp.body ∧
    ((ServiceAPI.dispatch st x).1.1 =
        Except.error (PyErr.httpError resp.status_code) ↔
      400 ≤ resp.status_code ∧ resp.status_code < 600) := by
  subst h
  refine ⟨rfl, ?_⟩
  simp only [ServiceAPI.dispatch]
  unfold raise_for_status
  split_ifs with hc
  · simp [hc]
  · simp [hc]

/-- C6: every ServiceAPI operation stores the decoded body of the
strategy response in the response slot, and raises afterwards exactly
when the status is 4xx/5xx, so the body is available even on raise. -/
theorem claim_C6 :
    (∀ (s : StrategyCalls) (st : ServiceAPIState) (name : String)
        (kwargs : PyDict) (resp : Response) (t : List HttpCall),
      s.create_project name kwargs = (Except.ok resp, t) →
      (ServiceAPI.create_project s st name kwargs).2.response = Option.some resp.body ∧
      ((ServiceAPI.create_project s st name kwargs).1.1 =
          Except.error (PyErr.httpError resp.status_code) ↔
        400 ≤ resp.status_code ∧ resp.status_code < 600)) ∧
    (∀ (s : StrategyCalls) (st : ServiceAPIState) (key : String)
        (kwargs : PyDict) (resp : Response) (t : List HttpCall),
      s.update_project key kwargs = (Except.ok resp, t) →
      (ServiceAPI.update_project s st key kwargs).2.response = Option.some resp.body ∧
      ((ServiceAPI.update_project s st key kwargs).1.1 =
          Except.error (PyErr.httpError resp.status_code) ↔
        400 ≤ resp.status_code ∧ resp.status_code < 600)) ∧
    (∀ (s : StrategyCalls) (st : ServiceAPIState) (key slug : String)
        (resp : Response) (t : List HttpCall),
      s.delete_project key slug = (Except.ok resp, t) →
      (ServiceAPI.delete_project s st key slug).2.response = Option.some resp.body ∧
      ((ServiceAPI.delete_project s st key slug).1.1 =
          Except.error (PyErr.httpError resp.status_code) ↔
        400 ≤ resp.status_code ∧ resp.status_code < 600)) ∧
    (∀ (s : StrategyCalls) (st : ServiceAPIState)
        (resp : Response) (t : List HttpCall),
      s.list_projects = (Except.ok resp, t) →
      (ServiceAPI.list_projects s st).2.response = Option.some resp.body ∧
      ((ServiceAPI.list_projects s st).1.1 =
          Except.error (PyErr.httpError resp.status_code) ↔
        400 ≤ resp.status_code ∧ resp.status_code < 600)) ∧
    (∀ (s : StrategyCalls) (st : ServiceAPIState) (key : String)
        (resp : Response) (t : List HttpCall),
      s.project_details key = (Except.ok resp, t) →
      (ServiceAPI.project_details s st key).2.response = Option.some resp.body ∧
      ((ServiceAPI.project_details s st key).1.1 =
          Except.error (PyErr.httpError resp.status_code) ↔
        400 ≤ resp.status_code ∧ resp.status_code < 600)) ∧
    (∀ (s : StrategyCalls) (st : ServiceAPIState)
        (project_id key_title ssh_key : String) (read_only : Bool)
        (resp : Response) (t : List HttpCall),
      s.add_deploy_key project_id key_title ssh_key read_only = (Except.ok resp, t) →
      (ServiceAPI.add_deploy_key s st project_id key_title ssh_key read_only).2.response =
        Option.some resp.body ∧
      ((ServiceAPI.add_deploy_key s st project_id key_title ssh_key read_only).1.1 =
          Except.error (PyErr.httpError resp.status_code) ↔
        400 ≤ resp.status_code ∧ resp.status_code < 600)) := by
  refine ⟨?_, ?_, ?_, ?_, ?_, ?_⟩
  · intro s st name kwargs resp t h
    exact dispatch_spec st (s.create_project name kwargs) resp t h
  · intro s st key kwargs resp t h
    exact dispatch_spec st (s.update_project key kwargs) resp t h
  · intro s st key slug resp t h
    exact dispatch_spec st (s.delete_project key slug) resp t h
  · intro s st resp t h
    exact dispatch_spec st s.list_projects resp t h
  · intro s st key resp t h
    exact dispatch_spec st (s.project_details key) resp t h
  · intro s st project_id key_title ssh_key read_only resp t h
    exact dispatch_spec st (s.add_deploy_key project_id key_title ssh_key read_only) resp t h

/-- Witness for C6 at a concrete strategy stub returning a 404
response: the slot holds the decoded body although the call raises. -/
theorem claim_C6_witness :
    testStrategyCalls.create_project "x" [] = (Except.ok testResp404, []) ∧
    (ServiceAPI.create_project testStrategyCalls
        (ServiceAPIState.mk Option.none) "x" []).2.response =
      Option.some (PyVal.dict [("message", PyVal.str "nope")]) ∧
    ((ServiceAPI.create_project testStrategyCalls
        (ServiceAPIState.mk Option.none) "x" []).1.1 =
        Except.error (PyErr.httpError 404) ↔
      400 ≤ 404 ∧ 404 < 600) :=
  ⟨rfl,
    (claim_C6.1 testStrategyCalls (ServiceAPIState.mk Option.none) "x" []
      testResp404 [] rfl).1,
    (claim_C6.1 testStrategyCalls (ServiceAPIState.mk Option.none) "x" []
      testResp404 [] rfl).2⟩

/-- Witness for C5 at concrete dictionaries: an absent key is added, a
dict entry is deep-merged, and an int entry raises. -/
theorem claim_C5_witness :
    merge_dict [("x", PyVal.int 3)] [("key", PyVal.dict [("a", PyVal.int 1)])] =
      Except.ok [("x", PyVal.int 3), ("key", PyVal.dict [("a", PyVal.int 1)])] ∧
    merge_dict [("key", PyVal.dict [("a", PyVal.int 1)])]
        [("key", PyVal.dict [("b", PyVal.int 2)])] =
      Except.ok [("key", PyVal.dict [("a", PyVal.int 1), ("b", PyVal.int 2)])] ∧
    merge_dict [("key", PyVal.int 7)] [("key", PyVal.dict [("b", PyVal.int 2)])] =
      Except.error (PyErr.attributeError "object has no attribute update") :=
  ⟨claim_C5.1 [("x", PyVal.int 3)] "key" [("a", PyVal.int 1)] rfl,
    claim_C5.2.1 [("key", PyVal.dict [("a", PyVal.int 1)])] "key"
      [("a", PyVal.int 1)] [("b", PyVal.int 2)] rfl,
    claim_C5.2.2.2 [("key", PyVal.int 7)] "key" (PyVal.int 7)
      [("b", PyVal.int 2)] rfl (fun d h => PyVal.noConfusion h)⟩

/-- The verification GET call of BitbucketStrategy.delete_project. -/
def bbDetailsCall (token u key : String) : HttpCall :=
  HttpCall.mk HttpMethod.GET (bbRepoUrl u key) (authKwargs (bbHeaders token))

/-- The DELETE call of BitbucketStrategy.delete_project. -/
def bbDeleteCall (token u slug : String) : HttpCall :=
  HttpCall.mk HttpMethod.DELETE (bbRepoUrl u slug) (authKwargs (bbHeaders token))

/-- The verification GET call of GitHubStrategy.delete_project. -/
def ghDetailsCall (token u key : String) : HttpCall :=
  HttpCall.mk HttpMethod.GET (ghRepoUrl u key) (authKwargs (ghHeaders token))

/-- The DELETE call of GitHubStrategy.delete_project. -/
def ghDeleteCall (token u key : String) : HttpCall :=
  HttpCall.mk HttpMethod.DELETE (ghRepoUrl u key) (authKwargs (ghHeaders token))

/-- The verification GET call of GitLabStrategy.delete_project. -/
def glDetailsCall (token key : String) : HttpCall :=
  HttpCall.mk HttpMethod.GET (glProjectUrl key) (authKwargs (glHeaders token))

/-- The DELETE call of GitLabStrategy.delete_project. -/
def glDeleteCall (token key : String) : HttpCall :=
  HttpCall.mk HttpMethod.DELETE (glProjectUrl key) (authKwargs (glHeaders token))

theorem bbUserUrl_ne_repo (u k : String) : bbUserUrl ≠ bbRepoUrl u k := by
  intro h
  have hl := congrArg String.length h
  have e1 : ("https://api.bitbucket.org/2.0/user" : String).length = 34 := rfl
  have e2 : ("https://api.bitbucket.org/2.0/repositories/" : String).length = 43 := rfl
  have e3 : ("/" : String).length = 1 := rfl
  rw [bbUserUrl, bbRepoUrl] at hl
  simp [String.length_append, e1, e2, e3] at hl
  omega

theorem ghUserUrl_ne_repo (u k : String) : ghUserUrl ≠ ghRepoUrl u k := by
  intro h
  have hl := congrArg String.length h
  have e1 : ("https://api.github.com/user" : String).length = 27 := rfl
  have e2 : ("https://api.github.com/repos/" : String).length = 29 := rfl
  have e3 : ("/" : String).length = 1 := rfl
  rw [ghUserUrl, ghRepoUrl] at hl
  simp [String.length_append, e1, e2, e3] at hl
  omega

/-- A transport oracle for witnesses: a user lookup yields the
username alice, every other GET yields a project whose name and path
fields are proj, and deletes yield an empty 204. -/
def testWorld : HttpWorld := fun meth url =>
  if url = bbUserUrl then
    Response.mk 200 (PyVal.dict [("username", PyVal.str "alice")])
  else if url = ghUserUrl then
    Response.mk 200 (PyVal.dict [("login", PyVal.str "alice")])
  else if meth = HttpMethod.DELETE then
    Response.mk 204 PyVal.none
  else
    Response.mk 200 (PyVal.dict [("name", PyVal.str "proj"), ("path", PyVal.str "proj")])

/-- C1: for every provider strategy, when the verification fetch of
delete_project succeeds but the identifying field (name for Bitbucket,
path for GitHub and GitLab) differs from the slug, no HTTP delete call
is issued and the synthetic 400 deletion-refused response is returned,
whose JSON body carries the refusal message. -/
theorem claim_C1 :
    (∀ (token key slug u : String) (w : HttpWorld) (v : PyVal),
      raise_for_status (w HttpMethod.GET bbUserUrl) = Except.ok () →
      pySubscript (w HttpMethod.GET bbUserUrl).body "username" =
        Except.ok (PyVal.str u) →
      raise_for_status (w HttpMethod.GET (bbRepoUrl u key)) = Except.ok () →
      pySubscript (w HttpMethod.GET (bbRepoUrl u key)).body "name" = Except.ok v →
      pyEqStr v slug = false →
      BitbucketStrategy.delete_project token w key slug =
        (Except.ok HTTP400_DELETION_REFUSED,
          [bbUserCall token, bbDetailsCall token u key]) ∧
      ((BitbucketStrategy.delete_project token w key slug).2.filter
        (fun c => c.method = HttpMethod.DELETE)) = []) ∧
    (∀ (token key slug u : String) (w : HttpWorld) (v : PyVal),
      raise_for_status (w HttpMethod.GET ghUserUrl) = Except.ok () →
      pySubscript (w HttpMethod.GET ghUserUrl).body "login" =
        Except.ok (PyVal.str u) →
      raise_for_status (w HttpMethod.GET (ghRepoUrl u key)) = Except.ok () →
      pySubscript (w HttpMethod.GET (ghRepoUrl u key)).body "path" = Except.ok v →
      pyEqStr v slug = false →
      GitHubStrategy.delete_project token w key slug =
        (Except.ok HTTP400_DELETION_REFUSED,
          [ghUserCall token, ghDetailsCall token u key]) ∧
      ((GitHubStrategy.delete_project token w key slug).2.filter
        (fun c => c.method = HttpMethod.DELETE)) = []) ∧
    (∀ (token key slug : String) (w : HttpWorld) (v : PyVal),
      raise_for_status (w HttpMethod.GET (glProjectUrl key)) = Except.ok () →
      pySubscript (w HttpMethod.GET (glProjectUrl key)).body "path" = Except.ok v →
      pyEqStr v slug = false →
      GitLabStrategy.delete_project token w key slug =
        (Except.ok HTTP400_DELETION_REFUSED, [glDetailsCall token key]) ∧
      ((GitLabStrategy.delete_project token w key slug).2.filter
        (fun c => c.method = HttpMethod.DELETE)) = []) ∧
    HTTP400_DELETION_REFUSED.status_code = 400 ∧
    pySubscript HTTP400_DELETION_REFUSED.body "message" =
      Except.ok (PyVal.str "Slug does not match project. Deletion refused.") := by
  refine ⟨?_, ?_, ?_, rfl, rfl⟩
  · intro token key slug u w v h1 h2 h3 h4 h5
    have hmain : BitbucketStrategy.delete_project token w key slug =
        (Except.ok HTTP400_DELETION_REFUSED,
          [bbUserCall token, bbDetailsCall token u key]) := by
      unfold BitbucketStrategy.delete_project
      rw [bb_project_details_spec token u key w h1 h2]
      simp [opBind, opLift, Except.map, bbDetailsCall, h3, h4, h5]
    exact ⟨hmain, by rw [hmain]; rfl⟩
  · intro token key slug u w v h1 h2 h3 h4 h5
    have hmain : GitHubStrategy.delete_project token w key slug =
        (Except.ok HTTP400_DELETION_REFUSED,
          [ghUserCall token, ghDetailsCall token u key]) := by
      unfold GitHubStrategy.delete_project
      rw [gh_project_details_spec token u key w h1 h2]
      simp [opBind, opLift, Except.map, ghDetailsCall, h3, h4, h5]
    exact ⟨hmain, by rw [hmain]; rfl⟩
  · intro token key slug w v h1 h2 h3
    have hmain : GitLabStrategy.delete_project token w key slug =
        (Except.ok HTTP400_DELETION_REFUSED, [glDetailsCall token key]) := by
      unfold GitLabStrategy.delete_project
      rw [gl_project_details_spec token key w]
      simp [opBind, opLift, Except.map, glDetailsCall, h1, h2, h3]
    exact ⟨hmain, by rw [hmain]; rfl⟩

/-- Witness for C1: the Bitbucket strategy on a concrete transport
refuses to delete when the slug does not match the stored name. -/
theorem claim_C1_witness :
    BitbucketStrategy.delete_project "tok" testWorld "proj" "nomatch" =
      (Except.ok HTTP400_DELETION_REFUSED,
        [bbUserCall "tok", bbDetailsCall "tok" "alice" "proj"]) ∧
    ((BitbucketStrategy.delete_project "tok" testWorld "proj" "nomatch").2.filter
      (fun c => c.method = HttpMethod.DELETE)) = [] :=
  claim_C1.1 "tok" "proj" "nomatch" "alice" testWorld (PyVal.str "proj")
    rfl rfl rfl rfl rfl

/-- C2: for every provider strategy, delete_project with a matching
identifying field issues exactly one HTTP delete call, to the
provider-correct path (Bitbucket repositories/username/slug, GitHub
repos/username/key, GitLab projects/key), preceded by exactly one
verification GET of the project details. -/
theorem claim_C2 :
    (∀ (token key slug u : String) (w : HttpWorld),
      raise_for_status (w HttpMethod.GET bbUserUrl) = Except.ok () →
      pySubscript (w HttpMethod.GET bbUserUrl).body "username" =
        Except.ok (PyVal.str u) →
      raise_for_status (w HttpMethod.GET (bbRepoUrl u key)) = Except.ok () →
      pySubscript (w HttpMethod.GET (bbRepoUrl u key)).body "name" =
        Except.ok (PyVal.str slug) →
      BitbucketStrategy.delete_project token w key slug =
        (Except.ok (w HttpMethod.DELETE (bbRepoUrl u slug)),
          [bbUserCall token, bbDetailsCall token u key,
            bbUserCall token, bbDeleteCall token u slug]) ∧
      (((BitbucketStrategy.delete_project token w key slug).2.filter
          (fun c => c.method = HttpMethod.DELETE)).map (fun c => c.url)) =
        [bbRepoUrl u slug] ∧
      ((BitbucketStrategy.delete_project token w key slug).2.filter
          (fun c => c.method = HttpMethod.GET ∧ c.url = bbRepoUrl u key)).length = 1 ∧
      (∃ i j : Nat, i < j ∧
        (BitbucketStrategy.delete_project token w key slug).2.get? i =
          Option.some (bbDetailsCall token u key) ∧
        (BitbucketStrategy.delete_project token w key slug).2.get? j =
          Option.some (bbDeleteCall token u slug))) ∧
    (∀ (token key slug u : String) (w : HttpWorld),
      raise_for_status (w HttpMethod.GET ghUserUrl) = Except.ok () →
      pySubscript (w HttpMethod.GET ghUserUrl).body "login" =
        Except.ok (PyVal.str u) →
      raise_for_status (w HttpMethod.GET (ghRepoUrl u key)) = Except.ok () →
      pySubscript (w HttpMethod.GET (ghRepoUrl u key)).body "path" =
        Except.ok (PyVal.str slug) →
      GitHubStrategy.delete_project token w key slug =
        (Except.ok (w HttpMethod.DELETE (ghRepoUrl u key)),
          [ghUserCall token, ghDetailsCall token u key,
            ghUserCall token, ghDeleteCall token u key]) ∧
      (((GitHubStrategy.delete_project token w key slug).2.filter
          (fun c => c.method = HttpMethod.DELETE)).map (fun c => c.url)) =
        [ghRepoUrl u key] ∧
      ((GitHubStrategy.delete_project token w key slug).2.filter
          (fun c => c.method = HttpMethod.GET ∧ c.url = ghRepoUrl u key)).length = 1 ∧
      (∃ i j : Nat, i < j ∧
        (GitHubStrategy.delete_project token w key slug).2.get? i =
          Option.some (ghDetailsCall token u key) ∧
        (GitHubStrategy.delete_project token w key slug).2.get? j =
          Option.some (ghDeleteCall token u key))) ∧
    (∀ (token key slug : String) (w : HttpWorld),
      raise_for_status (w HttpMethod.GET (glProjectUrl key)) = Except.ok () →
      pySubscript (w HttpMethod.GET (glProjectUrl key)).body "path" =
        Except.ok (PyVal.str slug) →
      GitLabStrategy.delete_project token w key slug =
        (Except.ok (w HttpMethod.DELETE (glProjectUrl key)),
          [glDetailsCall token key, glDeleteCall token key]) ∧
      (((GitLabStrategy.delete_project token w key slug).2.filter
          (fun c => c.method = HttpMethod.DELETE)).map (fun c => c.url)) =
        [glProjectUrl key] ∧
      ((GitLabStrategy.delete_project token w key slug).2.filter
          (fun c => c.method = HttpMethod.GET ∧ c.url = glProjectUrl key)).length = 1 ∧
      (∃ i j : Nat, i < j ∧
        (GitLabStrategy.delete_project token w key slug).2.get? i =
          Option.some (glDetailsCall token key) ∧
        (GitLabStrategy.delete_project token w key slug).2.get? j =
          Option.some (glDeleteCall token key))) := by
  refine ⟨?_, ?_, ?_⟩
  · intro token key slug u w h1 h2 h3 h4
    have hmain : BitbucketStrategy.delete_project token w key slug =
        (Except.ok (w HttpMethod.DELETE (bbRepoUrl u slug)),
          [bbUserCall token, bbDetailsCall token u key,
            bbUserCall token, bbDeleteCall token u slug]) := by
      unfold BitbucketStrategy.delete_project
      rw [bb_project_details_spec token u key w h1 h2]
      simp [opBind, opLift, Except.map, h3, h4, pyEqStr,
        bb_username_spec token u w h1 h2, bbDetailsCall, bbDeleteCall]
      exact ⟨rfl, rfl⟩
    refine ⟨hmain, by rw [hmain]; rfl, ?_, 1, 3, by omega,
      by rw [hmain]; rfl, by rw [hmain]; rfl⟩
    rw [hmain]
    have hne := bbUserUrl_ne_repo u key
    simp [List.filter, bbUserCall, bbDetailsCall, bbDeleteCall, hne]
  · intro token key slug u w h1 h2 h3 h4
    have hmain : GitHubStrategy.delete_project token w key slug =
        (Except.ok (w HttpMethod.DELETE (ghRepoUrl u key)),
          [ghUserCall token, ghDetailsCall token u key,
            ghUserCall token, ghDeleteCall token u key]) := by
      unfold GitHubStrategy.delete_project
      rw [gh_project_details_spec token u key w h1 h2]
      simp [opBind, opLift, Except.map, h3, h4, pyEqStr,
        gh_username_spec token u w h1 h2, ghDetailsCall, ghDeleteCall]
      exact ⟨rfl, rfl⟩
    refine ⟨hmain, by rw [hmain]; rfl, ?_, 1, 3, by omega,
      by rw [hmain]; rfl, by rw [hmain]; rfl⟩
    rw [hmain]
    have hne := ghUserUrl_ne_repo u key
    simp [List.filter, ghUserCall, ghDetailsCall, ghDeleteCall, hne]
  · intro token key slug w h1 h2
    have hmain : GitLabStrategy.delete_project token w key slug =
        (Except.ok (w HttpMethod.DELETE (glProjectUrl key)),
          [glDetailsCall token key, glDeleteCall token key]) := by
      unfold GitLabStrategy.delete_project
      rw [gl_project_details_spec token key w]
      simp [opBind, opLift, Except.map, h1, h2, pyEqStr,
        glDetailsCall, glDeleteCall]
      exact ⟨rfl, rfl⟩
    refine ⟨hmain, by rw [hmain]; rfl, ?_, 0, 1, by omega,
      by rw [hmain]; rfl, by rw [hmain]; rfl⟩
    rw [hmain]
    simp [List.filter, glDetailsCall, glDeleteCall]

/-- Witness for C2: the GitLab strategy on a concrete transport issues
one verification GET then one DELETE when the path matches. -/
theorem claim_C2_witness :
    GitLabStrategy.delete_project "tok" testWorld "proj" "proj" =
      (Except.ok (testWorld HttpMethod.DELETE (glProjectUrl "proj")),
        [glDetailsCall "tok" "proj", glDeleteCall "tok" "proj"]) ∧
    (((GitLabStrategy.delete_project "tok" testWorld "proj" "proj").2.filter
        (fun c => c.method = HttpMethod.DELETE)).map (fun c => c.url)) =
      [glProjectUrl "proj"] ∧
    ((GitLabStrategy.delete_project "tok" testWorld "proj" "proj").2.filter
        (fun c => c.method = HttpMethod.GET ∧ c.url = glProjectUrl "proj")).length = 1 ∧
    (∃ i j : Nat, i < j ∧
      (GitLabStrategy.delete_project "tok" testWorld "proj" "proj").2.get? i =
        Option.some (glDetailsCall "tok" "proj") ∧
      (GitLabStrategy.delete_project "tok" testWorld "proj" "proj").2.get? j =
        Option.some (glDeleteCall "tok" "proj")) :=
  claim_C2.2.2 "tok" "proj" "proj" testWorld rfl rfl

/-- A transport oracle whose GET responses carry the non-2xx status
304 with a matching path field; deletes yield an empty 204. -/
def world304 : HttpWorld := fun meth _ =>
  if meth = HttpMethod.GET then
    Response.mk 304 (PyVal.dict [("name", PyVal.str "demo"), ("path", PyVal.str "demo")])
  else
    Response.mk 204 PyVal.none

/-- Counterexample to C8 as stated: on GitLab the verification fetch
returns the non-2xx status 304, yet delete_project raises nothing and
even issues the delete call, because raise_for_status only raises on
4xx/5xx. -/
theorem claim_C8_cex :
    (world304 HttpMethod.GET (glProjectUrl "123")).status_code = 304 ∧
    GitLabStrategy.delete_project "tok" world304 "123" "demo" =
      (Except.ok (Response.mk 204 PyVal.none),
        [glDetailsCall "tok" "123", glDeleteCall "tok" "123"]) ∧
    (∀ e : PyErr,
      (GitLabStrategy.delete_project "tok" world304 "123" "demo").1 ≠
        Except.error e) := by
  refine ⟨rfl, rfl, ?_⟩
  intro e h
  rw [show (GitLabStrategy.delete_project "tok" world304 "123" "demo").1 =
    Except.ok (Response.mk 204 PyVal.none) from rfl] at h
  exact Except.noConfusion h

/-- C8 amended: for every provider strategy, delete_project first
fetches the project details and raises when that fetch returns a 4xx
or 5xx status; in that case no delete call is issued and no synthetic
response is returned. -/
theorem claim_C8 :
    (∀ (token key slug u : String) (w : HttpWorld),
      raise_for_status (w HttpMethod.GET bbUserUrl) = Except.ok () →
      pySubscript (w HttpMethod.GET bbUserUrl).body "username" =
        Except.ok (PyVal.str u) →
      400 ≤ (w HttpMethod.GET (bbRepoUrl u key)).status_code →
      (w HttpMethod.GET (bbRepoUrl u key)).status_code < 600 →
      BitbucketStrategy.delete_project token w key slug =
        (Except.error (PyErr.httpError (w HttpMethod.GET (bbRepoUrl u key)).status_code),
          [bbUserCall token, bbDetailsCall token u key]) ∧
      ((BitbucketStrategy.delete_project token w key slug).2.filter
        (fun c => c.method = HttpMethod.DELETE)) = []) ∧
    (∀ (token key slug u : String) (w : HttpWorld),
      raise_for_status (w HttpMethod.GET ghUserUrl) = Except.ok () →
      pySubscript (w HttpMethod.GET ghUserUrl).body "login" =
        Except.ok (PyVal.str u) →
      400 ≤ (w HttpMethod.GET (ghRepoUrl u key)).status_code →
      (w HttpMethod.GET (ghRepoUrl u key)).status_code < 600 →
      GitHubStrategy.delete_project token w key slug =
        (Except.error (PyErr.httpError (w HttpMethod.GET (ghRepoUrl u key)).status_code),
          [ghUserCall token, ghDetailsCall token u key]) ∧
      ((GitHubStrategy.delete_project token w key slug).2.filter
        (fun c => c.method = HttpMethod.DELETE)) = []) ∧
    (∀ (token key slug : String) (w : HttpWorld),
      400 ≤ (w HttpMethod.GET (glProjectUrl key)).status_code →
      (w HttpMethod.GET (glProjectUrl key)).status_code < 600 →
      GitLabStrategy.delete_project token w key slug =
        (Except.error (PyErr.httpError (w HttpMethod.GET (glProjectUrl key)).status_code),
          [glDetailsCall token key]) ∧
      ((GitLabStrategy.delete_project token w key slug).2.filter
        (fun c => c.method = HttpMethod.DELETE)) = []) := by
  refine ⟨?_, ?_, ?_⟩
  · intro token key slug u w h1 h2 h3 h4
    have hmain : BitbucketStrategy.delete_project token w key slug =
        (Except.error (PyErr.httpError (w HttpMethod.GET (bbRepoUrl u key)).status_code),
          [bbUserCall token, bbDetailsCall token u key]) := by
      unfold BitbucketStrategy.delete_project
      rw [bb_project_details_spec token u key w h1 h2]
      simp [opBind, opLift, Except.map, raise_for_status, bbDetailsCall, h3, h4]
    exact ⟨hmain, by rw [hmain]; rfl⟩
  · intro token key slug u w h1 h2 h3 h4
    have hmain : GitHubStrategy.delete_project token w key slug =
        (Except.error (PyErr.httpError (w HttpMethod.GET (ghRepoUrl u key)).status_code),
          [ghUserCall token, ghDetailsCall token u key]) := by
      unfold GitHubStrategy.delete_project
      rw [gh_project_details_spec token u key w h1 h2]
      simp [opBind, opLift, Except.map, raise_for_status, ghDetailsCall, h3, h4]
    exact ⟨hmain, by rw [hmain]; rfl⟩
  · intro token key slug w h3 h4
    have hmain : GitLabStrategy.delete_project token w key slug =
        (Except.error (PyErr.httpError (w HttpMethod.GET (glProjectUrl key)).status_code),
          [glDetailsCall token key]) := by
      unfold GitLabStrategy.delete_project
      rw [gl_project_details_spec token key w]
      simp [opBind, opLift, Except.map, raise_for_status, glDetailsCall, h3, h4]
    exact ⟨hmain, by rw [hmain]; rfl⟩

/-- A transport oracle whose GET responses fail with 404. -/
def world404 : HttpWorld := fun meth url =>
  if url = bbUserUrl then
    Response.mk 200 (PyVal.dict [("username", PyVal.str "alice")])
  else if url = ghUserUrl then
    Response.mk 200 (PyVal.dict [("login", PyVal.str "alice")])
  else if meth = HttpMethod.GET then
    Response.mk 404 (PyVal.dict [("message", PyVal.str "not found")])
  else
    Response.mk 204 PyVal.none

/-- Witness for C8 amended: on GitLab a 404 verification fetch makes
delete_project raise with no delete call issued. -/
theorem claim_C8_witness :
    GitLabStrategy.delete_project "tok" world404 "123" "demo" =
      (Except.error (PyErr.httpError 404), [glDetailsCall "tok" "123"]) ∧
    ((GitLabStrategy.delete_project "tok" world404 "123" "demo").2.filter
      (fun c => c.method = HttpMethod.DELETE)) = [] :=
  claim_C8.2.2 "tok" "123" "demo" world404 (by decide) (by decide)

theorem bb_create_spec (token name : String) (slug : Option String)
    (kwargs : PyDict) (u : String) (w : HttpWorld)
    (h1 : raise_for_status (w HttpMethod.GET bbUserUrl) = Except.ok ())
    (h2 : pySubscript (w HttpMethod.GET bbUserUrl).body "username" =
      Except.ok (PyVal.str u)) :
    BitbucketStrategy.create_project token w name slug kwargs =
      (Except.ok (w HttpMethod.POST (bbRepoUrl u (default_slug slug name))),
        [bbUserCall token,
          HttpCall.mk HttpMethod.POST (bbRepoUrl u (default_slug slug name))
            [("json", PyVal.dict (BitbucketStrategy.create_settings name kwargs)),
              ("headers", PyVal.dict (bbHeaders token))]]) := by
  unfold BitbucketStrategy.create_project
  rw [bb_username_spec token u w h1 h2]
  rfl

theorem gh_create_spec (token name : String) (slug : Option String)
    (kwargs : PyDict) (w : HttpWorld) :
    GitHubStrategy.create_project token w name slug kwargs =
      (Except.ok (w HttpMethod.POST ghCreateUrl),
        [HttpCall.mk HttpMethod.POST ghCreateUrl
          [("json", PyVal.dict (GitHubStrategy.create_settings name slug kwargs)),
            ("headers", PyVal.dict (ghHeaders token))]]) := rfl

theorem gl_create_spec (token name : String) (slug : Option String)
    (kwargs : PyDict) (w : HttpWorld) :
    GitLabStrategy.create_project token w name slug kwargs =
      (Except.ok (w HttpMethod.POST glProjectsUrl),
        [HttpCall.mk HttpMethod.POST glProjectsUrl
          [("params", PyVal.dict (GitLabStrategy.create_settings name slug kwargs)),
            ("headers", PyVal.dict (glHeaders token))]]) := rfl

/-- Counterexample to C3 as stated: the GitHub create payload without
caller-supplied fields carries private = False, not private = True. -/
theorem claim_C3_cex :
    ((GitHubStrategy.create_project "tok" testWorld "x" Option.none []).2.map
      (fun c => dictGet c.kwargs "json")) =
      [Option.some (PyVal.dict (GitHubStrategy.create_settings "x" Option.none []))] ∧
    dictGet (GitHubStrategy.create_settings "x" Option.none []) "private" =
      Option.some (PyVal.bool false) ∧
    dictGet (GitHubStrategy.create_settings "x" Option.none []) "private" ≠
      Option.some (PyVal.bool true) := by
  refine ⟨rfl, rfl, ?_⟩
  intro h
  rw [show dictGet (GitHubStrategy.create_settings "x" Option.none []) "private" =
    Option.some (PyVal.bool false) from rfl] at h
  simp at h

/-- C3 amended: without caller-supplied visibility fields, the create
payload defaults to non-public on Bitbucket (is_private True) and
GitLab (public False), but on GitHub the private flag defaults to
False, so GitHub projects are public by default. -/
theorem claim_C3 :
    (∀ (name : String) (kwargs : PyDict),
      dictGet kwargs "is_private" = Option.none →
      dictGet (BitbucketStrategy.create_settings name kwargs) "is_private" =
        Option.some (PyVal.bool true)) ∧
    (∀ (name : String) (slug : Option String) (kwargs : PyDict),
      dictGet kwargs "private" = Option.none →
      dictGet (GitHubStrategy.create_settings name slug kwargs) "private" =
        Option.some (PyVal.bool false)) ∧
    (∀ (name : String) (slug : Option String) (kwargs : PyDict),
      dictGet kwargs "public" = Option.none →
      dictGet (GitLabStrategy.create_settings name slug kwargs) "public" =
        Option.some (PyVal.bool false)) ∧
    (∀ (token name : String) (slug : Option String) (w : HttpWorld),
      ((GitHubStrategy.create_project token w name slug []).2.map
        (fun c => dictGet c.kwargs "json")) =
        [Option.some (PyVal.dict (GitHubStrategy.create_settings name slug []))]) ∧
    (∀ (token name : String) (slug : Option String) (w : HttpWorld),
      ((GitLabStrategy.create_project token w name slug []).2.map
        (fun c => dictGet c.kwargs "params")) =
        [Option.some (PyVal.dict (GitLabStrategy.create_settings name slug []))]) ∧
    (∀ (token name u : String) (slug : Option String) (kwargs : PyDict) (w : HttpWorld),
      raise_for_status (w HttpMethod.GET bbUserUrl) = Except.ok () →
      pySubscript (w HttpMethod.GET bbUserUrl).body "username" =
        Except.ok (PyVal.str u) →
      ((BitbucketStrategy.create_project token w name slug kwargs).2.map
        (fun c => dictGet c.kwargs "json")) =
        [Option.none,
          Option.some (PyVal.dict (BitbucketStrategy.create_settings name kwargs))]) := by
  refine ⟨?_, ?_, ?_, ?_, ?_, ?_⟩
  · intro name kwargs h
    unfold BitbucketStrategy.create_settings
    rw [dictGet_dictUpdate_none _ _ _ h]
    rfl
  · intro name slug kwargs h
    unfold GitHubStrategy.create_settings
    rw [dictGet_dictUpdate_none _ _ _ h]
    rfl
  · intro name slug kwargs h
    unfold GitLabStrategy.create_settings
    rw [dictGet_dictUpdate_none _ _ _ h]
    rfl
  · intro token name slug w
    rw [gh_create_spec]
    rfl
  · intro token name slug w
    rw [gl_create_spec]
    rfl
  · intro token name u slug kwargs w h1 h2
    rw [bb_create_spec token name slug kwargs u w h1 h2]
    rfl

/-- Witness for C3 amended at concrete empty keyword arguments. -/
theorem claim_C3_witness :
    dictGet (BitbucketStrategy.create_settings "x" []) "is_private" =
      Option.some (PyVal.bool true) ∧
    dictGet (GitHubStrategy.create_settings "x" Option.none []) "private" =
      Option.some (PyVal.bool false) ∧
    dictGet (GitLabStrategy.create_settings "x" Option.none []) "public" =
      Option.some (PyVal.bool false) ∧
    ((BitbucketStrategy.create_project "tok" testWorld "x" Option.none []).2.map
      (fun c => dictGet c.kwargs "json")) =
      [Option.none,
        Option.some (PyVal.dict (BitbucketStrategy.create_settings "x" []))] :=
  ⟨claim_C3.1 "x" [] rfl,
    claim_C3.2.1 "x" Option.none [] rfl,
    claim_C3.2.2.1 "x" Option.none [] rfl,
    claim_C3.2.2.2.2.2 "tok" "x" "alice" Option.none [] testWorld rfl rfl⟩

/-- Counterexample to C4 as stated: the GitLab create payload without
a slug carries path = None verbatim, not a slug derived from the name
by slugify. -/
theorem claim_C4_cex :
    ((GitLabStrategy.create_project "tok" testWorld "My Project" Option.none []).2.map
      (fun c => dictGet c.kwargs "params")) =
      [Option.some (PyVal.dict (GitLabStrategy.create_settings "My Project" Option.none []))] ∧
    dictGet (GitLabStrategy.create_settings "My Project" Option.none []) "path" =
      Option.some PyVal.none ∧
    dictGet (GitLabStrategy.create_settings "My Project" Option.none []) "path" ≠
      Option.some (PyVal.str (slugify "My Project")) := by
  refine ⟨rfl, rfl, ?_⟩
  intro h
  rw [show dictGet (GitLabStrategy.create_settings "My Project" Option.none []) "path" =
    Option.some PyVal.none from rfl] at h
  exact PyVal.noConfusion (Option.some.inj h)

/-- C4 amended: without a slug, Bitbucket derives the URL path segment
and GitHub derives the name field from the human-readable name via
slugify (for example My Project! becomes my-project); GitLab passes
the supplied slug verbatim into the path field, so the path is None
when no slug is given. -/
theorem claim_C4 :
    (∀ (token name u : String) (kwargs : PyDict) (w : HttpWorld),
      raise_for_status (w HttpMethod.GET bbUserUrl) = Except.ok () →
      pySubscript (w HttpMethod.GET bbUserUrl).body "username" =
        Except.ok (PyVal.str u) →
      BitbucketStrategy.create_project token w name Option.none kwargs =
        (Except.ok (w HttpMethod.POST (bbRepoUrl u (slugify name))),
          [bbUserCall token,
            HttpCall.mk HttpMethod.POST (bbRepoUrl u (slugify name))
              [("json", PyVal.dict (BitbucketStrategy.create_settings name kwargs)),
                ("headers", PyVal.dict (bbHeaders token))]])) ∧
    (∀ (name : String) (kwargs : PyDict),
      dictGet kwargs "name" = Option.none →
      dictGet (GitHubStrategy.create_settings name Option.none kwargs) "name" =
        Option.some (PyVal.str (slugify name))) ∧
    (∀ (name : String) (kwargs : PyDict),
      dictGet kwargs "path" = Option.none →
      dictGet (GitLabStrategy.create_settings name Option.none kwargs) "path" =
        Option.some PyVal.none) ∧
    slugify "My Project!" = "my-project" := by
  refine ⟨?_, ?_, ?_, rfl⟩
  · intro token name u kwargs w h1 h2
    exact bb_create_spec token name Option.none kwargs u w h1 h2
  · intro name kwargs h
    unfold GitHubStrategy.create_settings
    rw [dictGet_dictUpdate_none _ _ _ h]
    rfl
  · intro name kwargs h
    unfold GitLabStrategy.create_settings
    rw [dictGet_dictUpdate_none _ _ _ h]
    rfl

/-- Witness for C4 amended at a concrete name with punctuation. -/
theorem claim_C4_witness :
    BitbucketStrategy.create_project "tok" testWorld "My Project!" Option.none [] =
      (Except.ok (testWorld HttpMethod.POST (bbRepoUrl "alice" (slugify "My Project!"))),
        [bbUserCall "tok",
          HttpCall.mk HttpMethod.POST (bbRepoUrl "alice" (slugify "My Project!"))
            [("json", PyVal.dict (BitbucketStrategy.create_settings "My Project!" [])),
              ("headers", PyVal.dict (bbHeaders "tok"))]]) ∧
    dictGet (GitHubStrategy.create_settings "My Project!" Option.none []) "name" =
      Option.some (PyVal.str (slugify "My Project!")) ∧
    dictGet (GitLabStrategy.create_settings "My Project!" Option.none []) "path" =
      Option.some PyVal.none :=
  ⟨claim_C4.1 "tok" "My Project!" "alice" [] testWorld rfl rfl,
    claim_C4.2.1 "My Project!" [] rfl,
    claim_C4.2.2.1 "My Project!" [] rfl⟩

theorem bb_username_trace (token : String) (w : HttpWorld) :
    (BitbucketStrategy.username token w).2 = [bbUserCall token] := by
  unfold BitbucketStrategy.username ServiceRequestsMixin.get_json_or_raise
  have hg : (BitbucketStrategy.mixin token).get w "user" [] [] =
      (Except.ok (w HttpMethod.GET bbUserUrl), [bbUserCall token]) := rfl
  rw [hg]
  cases hr : raise_for_status (w HttpMethod.GET bbUserUrl) with
  | error e => simp [opBind, opLift, Except.map, hr]
  | ok a =>
    cases hs : pySubscript (w HttpMethod.GET bbUserUrl).body "username" <;>
      simp [opBind, opLift, Except.map, hr, hs]

theorem bb_put_none_segment (token : String) (w : HttpWorld) (v : PyVal)
    (kwargs : PyDict) :
    (BitbucketStrategy.mixin token).put w "repositories" [v, PyVal.none] kwargs =
      (Except.error (PyErr.typeError "sequence item: expected str instance"), []) := by
  cases v <;> rfl

/-- C9: Bitbucket update_project without a slug never issues a PUT
request, for every transport; when the username resolves, it raises a
TypeError locally while joining the URL path over the None slug
segment, having issued only the username GET. -/
theorem claim_C9 :
    (∀ (token key : String) (kwargs : PyDict) (w : HttpWorld),
      ((BitbucketStrategy.update_project token w key Option.none kwargs).2.filter
        (fun c => c.method = HttpMethod.PUT)) = []) ∧
    (∀ (token key u : String) (kwargs : PyDict) (w : HttpWorld),
      raise_for_status (w HttpMethod.GET bbUserUrl) = Except.ok () →
      pySubscript (w HttpMethod.GET bbUserUrl).body "username" =
        Except.ok (PyVal.str u) →
      BitbucketStrategy.update_project token w key Option.none kwargs =
        (Except.error (PyErr.typeError "sequence item: expected str instance"),
          [bbUserCall token])) := by
  constructor
  · intro token key kwargs w
    unfold BitbucketStrategy.update_project
    rcases hu : BitbucketStrategy.username token w with ⟨r, t⟩
    have ht : t = [bbUserCall token] := by
      have h := bb_username_trace token w
      rw [hu] at h
      exact h
    subst ht
    cases r with
    | error e => rfl
    | ok v =>
      simp [opBind, bb_put_none_segment token w v, optPyStr]
      intro h
      exact HttpMethod.noConfusion h
  · intro token key u kwargs w h1 h2
    unfold BitbucketStrategy.update_project
    rw [bb_username_spec token u w h1 h2]
    simp [opBind, bb_put_none_segment token w (PyVal.str u), optPyStr]

/-- Witness for C9: on a concrete transport the update raises the join
TypeError after only the username GET, and the trace has no PUT. -/
theorem claim_C9_witness :
    ((BitbucketStrategy.update_project "tok" testWorld "proj" Option.none []).2.filter
      (fun c => c.method = HttpMethod.PUT)) = [] ∧
    BitbucketStrategy.update_project "tok" testWorld "proj" Option.none [] =
      (Except.error (PyErr.typeError "sequence item: expected str instance"),
        [bbUserCall "tok"]) :=
  ⟨claim_C9.1 "tok" "proj" [] testWorld,
    claim_C9.2 "tok" "proj" "alice" [] testWorld rfl rfl⟩

theorem merge_headers_spec (m : ServiceRequestsMixin) (kwargs ch : PyDict)
    (h : dictGet kwargs "headers" = Option.some (PyVal.dict ch)) :
    merge_dict kwargs [("headers", PyVal.dict m.headers)] =
      Except.ok (dictSet kwargs "headers" (PyVal.dict (dictUpdate ch m.headers))) := by
  simp [merge_dict, h]

/-- The caller-supplied headers used in the C10 witness: a custom
entry plus a forged Authorization entry that the fixed headers must
overwrite. -/
def chTest : PyDict :=
  [("X-Custom", PyVal.str "mine"), ("Authorization", PyVal.str "forged")]

/-- C10: merge_dict merges the fixed headers of the strategy into the
caller-supplied headers mapping (the very object passed in, which
Python updates in place and returns): the entry under headers becomes
the caller mapping updated by the fixed headers, fixed entries win
every key collision, the fixed headers always contain the bearer
token, and the call recorded by the executor carries exactly that
merged mapping. -/
theorem claim_C10 :
    (∀ (m : ServiceRequestsMixin) (kwargs ch : PyDict),
      dictGet kwargs "headers" = Option.some (PyVal.dict ch) →
      merge_dict kwargs [("headers", PyVal.dict m.headers)] =
        Except.ok (dictSet kwargs "headers"
          (PyVal.dict (dictUpdate ch m.headers)))) ∧
    (∀ (ch fixed : PyDict) (k : String) (v : PyVal),
      (fixed.map Prod.fst).Nodup →
      dictGet fixed k = Option.some v →
      dictGet (dictUpdate ch fixed) k = Option.some v) ∧
    (∀ (headers0 : PyDict) (token : String),
      dictGet (ServiceAPIStrategy.init_headers headers0 token) "Authorization" =
        Option.some (PyVal.str ("Bearer " ++ token))) ∧
    (∀ (m : ServiceRequestsMixin) (w : HttpWorld) (endpoint : String)
        (args : List PyVal) (kwargs ch : PyDict) (url : String),
      m.url_for_endpoint endpoint args = Except.ok url →
      dictGet kwargs "headers" = Option.some (PyVal.dict ch) →
      ((m.get w endpoint args kwargs).2.map
        (fun c => dictGet c.kwargs "headers")) =
        [Option.some (PyVal.dict (dictUpdate ch m.headers))]) := by
  refine ⟨?_, ?_, ?_, ?_⟩
  · intro m kwargs ch h
    exact merge_headers_spec m kwargs ch h
  · intro ch fixed k v hn h
    exact dictGet_dictUpdate_some ch fixed k v hn h
  · intro headers0 token
    unfold ServiceAPIStrategy.init_headers
    rw [dictGet_dictSet]
    simp
  · intro m w endpoint args kwargs ch url hurl h
    unfold ServiceRequestsMixin.get ServiceRequestsMixin.request
    rw [hurl, merge_headers_spec m kwargs ch h]
    simp [dictGet_dictSet]

/-- Witness for C10: merging the Bitbucket fixed headers into a caller
mapping holding a custom entry and a forged Authorization entry keeps
the custom entry and overwrites the forged token with the real one,
and the recorded GET carries the merged mapping. -/
theorem claim_C10_witness :
    merge_dict [("headers", PyVal.dict chTest)]
        [("headers", PyVal.dict (bbHeaders "tok"))] =
      Except.ok [("headers", PyVal.dict (dictUpdate chTest (bbHeaders "tok")))] ∧
    dictGet (dictUpdate chTest (bbHeaders "tok")) "Authorization" =
      Option.some (PyVal.str ("Bearer " ++ "tok")) ∧
    dictGet (ServiceAPIStrategy.init_headers [] "tok") "Authorization" =
      Option.some (PyVal.str ("Bearer " ++ "tok")) ∧
    (((BitbucketStrategy.mixin "tok").get testWorld "user" []
        [("headers", PyVal.dict chTest)]).2.map
      (fun c => dictGet c.kwargs "headers")) =
      [Option.some (PyVal.dict (dictUpdate chTest (bbHeaders "tok")))] :=
  ⟨claim_C10.1 (BitbucketStrategy.mixin "tok") [("headers", PyVal.dict chTest)] chTest rfl,
    claim_C10.2.1 chTest (bbHeaders "tok") "Authorization"
      (PyVal.str ("Bearer " ++ "tok")) (by decide) rfl,
    claim_C10.2.2.1 [] "tok",
    claim_C10.2.2.2 (BitbucketStrategy.mixin "tok") testWorld "user" []
      [("headers", PyVal.dict chTest)] chTest bbUserUrl rfl rfl⟩
